import Mathlib

/-!
Verification of the OpenStreetMap import orchestrator (src/modelgen.py).

The repository's single operation, ModelGenerator.import_from_openstreet_map,
sequences up to four external geometry providers (terrain, buildings, trees,
roads), assembles a parts registry, and serializes an environment descriptor
to a JSON file.  We embed it shallowly: the external providers become a record
of functions returning Except values; the observable effects of one call
(the ordered list of provider invocations, the file writes, and the returned
or raised outcome) are collected in an Effects record.  Numeric parameters are
modelled as exact rationals, so the Python literal 0.8 is the rational 4/5.
-/

namespace OsmMapgen

/-- The result dictionary each provider returns: keys "file_name" and "mesh". -/
structure GeoResult (Mesh : Type) where
  file_name : String
  mesh : Mesh
  deriving DecidableEq

/-- A part descriptor as built in the body: file_name, color, material. -/
structure PartDict where
  file_name : String
  color : String
  material : String
  deriving DecidableEq

/-- One provider invocation, recording the callee and every argument passed,
in particular the mesh argument and max_radius value. -/
inductive ProviderCall (L Mesh : Type) where
  | terrain (latitude_longitude : L) (max_radius : ℚ) (grid_size : ℕ)
  | buildings (latitude_longitude : L) (terrain_mesh : Mesh) (max_radius : ℚ)
  | trees (latitude_longitude : L) (terrain_mesh : Mesh) (max_radius : ℚ)
  | roads (latitude_longitude : L) (terrain_mesh : Mesh) (max_radius : ℚ)
      (z_offset : ℚ) (road_step : ℚ) (road_width : ℚ) (save_nodes : Bool)
  deriving DecidableEq

/-- The scene dictionary built at lines 131-141 of modelgen.py.  The parts
registry is an insertion-ordered association list, as a Python dict is. -/
structure Scene (L : Type) where
  name : String
  version : ℕ
  type : String
  center_lat_lon : L
  radius : ℚ
  include_buildings : Bool
  include_roads : Bool
  include_trees : Bool
  parts : List (String × PartDict)
  deriving DecidableEq

/-- One file write: open(json_path, "w", encoding="utf-8") followed by
json.dump(scene, f, indent=4) is a single write of the scene object at
json_path with the given encoding and indentation. -/
structure WriteEvent (L : Type) where
  path : String
  content : Scene L
  encoding : String
  indent : ℕ
  deriving DecidableEq

/-- The observable behaviour of one call to the orchestrator: the ordered
provider invocations, the file writes that happened, and either the returned
scene or the propagated exception. -/
structure Effects (L Mesh E : Type) where
  calls : List (ProviderCall L Mesh)
  writes : List (WriteEvent L)
  outcome : Except E (Scene L)

/-- The external geometry library: each provider either returns a result
dictionary or raises. -/
structure Providers (L Mesh E : Type) where
  get_terrain : L → ℚ → ℕ → Except E (GeoResult Mesh)
  generate_buildings : L → Mesh → ℚ → Except E (GeoResult Mesh)
  generate_trees : L → Mesh → ℚ → Except E (GeoResult Mesh)
  create_roads : L → Mesh → ℚ → ℚ → ℚ → ℚ → Bool → Except E (GeoResult Mesh)

/-- The keyword parameters of import_from_openstreet_map
(latitude_longitude, the only required parameter, is passed separately). -/
structure Args where
  env_name : String
  terrain_radius : ℚ
  include_osm_buildings : Bool
  including_osm_roads : Bool
  include_osm_trees : Bool
  import_in_aedt : Bool
  plot_before_importing : Bool
  z_offset : ℚ
  road_step : ℚ
  road_width : ℚ
  create_lightweigth_part : Bool
  save_nodes : Bool
  deriving DecidableEq

/-- The default values of the signature at lines 22-37 of modelgen.py. -/
def defaultArgs : Args where
  env_name := "default"
  terrain_radius := 500
  include_osm_buildings := true
  including_osm_roads := true
  include_osm_trees := true
  import_in_aedt := false
  plot_before_importing := false
  z_offset := 2
  road_step := 3
  road_width := 8
  create_lightweigth_part := true
  save_nodes := false

variable {L Mesh E : Type}

/-- The scene dictionary literal at lines 131-141 of modelgen.py, as a
function of the inputs it mentions. -/
def scene_of (latitude_longitude : L) (a : Args)
    (parts_dict : List (String × PartDict)) : Scene L :=
  { name := a.env_name
    version := 1
    type := "environment"
    center_lat_lon := latitude_longitude
    radius := a.terrain_radius
    include_buildings := a.include_osm_buildings
    include_roads := a.including_osm_roads
    include_trees := a.include_osm_trees
    parts := parts_dict }

/-- Final block of the body (lines 129-147): build json_path from the
hardcoded output_path ".", assemble the scene dictionary, write it as
indented UTF-8 JSON, and return it.  parts_dict and calls are the registry
and provider-invocation trace accumulated by the earlier blocks. -/
def finalize_stage (latitude_longitude : L) (a : Args)
    (parts_dict : List (String × PartDict)) (calls : List (ProviderCall L Mesh)) :
    Effects L Mesh E :=
  let output_path := "."
  let json_path := output_path ++ "/" ++ (a.env_name ++ ".json")
  let scene : Scene L := scene_of latitude_longitude a parts_dict
  { calls := calls
    writes := [{ path := json_path, content := scene, encoding := "utf-8", indent := 4 }]
    outcome := Except.ok scene }

/-- Roads block (lines 111-127): when the roads flag is set, call
create_roads with the full terrain_radius, the z_offset, road_step,
road_width and save_nodes parameters and the terrain mesh, and append the
roads part descriptor; then fall through to the final block. -/
def roads_stage (P : Providers L Mesh E) (latitude_longitude : L) (terrain_mesh : Mesh)
    (a : Args) (parts_dict : List (String × PartDict))
    (calls : List (ProviderCall L Mesh)) : Effects L Mesh E :=
  if a.including_osm_roads then
    let rcall := ProviderCall.roads latitude_longitude terrain_mesh a.terrain_radius
      a.z_offset a.road_step a.road_width a.save_nodes
    match P.create_roads latitude_longitude terrain_mesh a.terrain_radius
        a.z_offset a.road_step a.road_width a.save_nodes with
    | Except.error e =>
        { calls := calls ++ [rcall], writes := [], outcome := Except.error e }
    | Except.ok road_geo =>
        let road_stl := road_geo.file_name
        let road_dict : PartDict :=
          { file_name := road_stl, color := "black", material := "asphalt" }
        finalize_stage latitude_longitude a (parts_dict ++ [("roads", road_dict)])
          (calls ++ [rcall])
  else finalize_stage latitude_longitude a parts_dict calls

/-- Trees block (lines 100-109): when the trees flag is set, call
generate_trees at 0.8 times the terrain radius with the terrain mesh and
append the trees part descriptor; then fall through to the roads block. -/
def trees_stage (P : Providers L Mesh E) (latitude_longitude : L) (terrain_mesh : Mesh)
    (a : Args) (parts_dict : List (String × PartDict))
    (calls : List (ProviderCall L Mesh)) : Effects L Mesh E :=
  if a.include_osm_trees then
    let trcall := ProviderCall.trees latitude_longitude terrain_mesh (a.terrain_radius * 0.8)
    match P.generate_trees latitude_longitude terrain_mesh (a.terrain_radius * 0.8) with
    | Except.error e =>
        { calls := calls ++ [trcall], writes := [], outcome := Except.error e }
    | Except.ok tree_geo =>
        let tree_stl := tree_geo.file_name
        let tree_dict : PartDict :=
          { file_name := tree_stl, color := "green", material := "wood" }
        roads_stage P latitude_longitude terrain_mesh a
          (parts_dict ++ [("trees", tree_dict)]) (calls ++ [trcall])
  else roads_stage P latitude_longitude terrain_mesh a parts_dict calls

/-- Buildings block (lines 89-98): when the buildings flag is set, call
generate_buildings at 0.8 times the terrain radius with the terrain mesh
and append the buildings part descriptor; then fall through to the trees
block. -/
def buildings_stage (P : Providers L Mesh E) (latitude_longitude : L) (terrain_mesh : Mesh)
    (a : Args) (parts_dict : List (String × PartDict))
    (calls : List (ProviderCall L Mesh)) : Effects L Mesh E :=
  if a.include_osm_buildings then
    let bcall := ProviderCall.buildings latitude_longitude terrain_mesh (a.terrain_radius * 0.8)
    match P.generate_buildings latitude_longitude terrain_mesh (a.terrain_radius * 0.8) with
    | Except.error e =>
        { calls := calls ++ [bcall], writes := [], outcome := Except.error e }
    | Except.ok building_geo =>
        let building_stl := building_geo.file_name
        let building_dict : PartDict :=
          { file_name := building_stl, color := "grey", material := "concrete" }
        trees_stage P latitude_longitude terrain_mesh a
          (parts_dict ++ [("buildings", building_dict)]) (calls ++ [bcall])
  else trees_stage P latitude_longitude terrain_mesh a parts_dict calls

/-- Shallow embedding of ModelGenerator.import_from_openstreet_map
(lines 22-147 of modelgen.py).  The terrain stage (lines 81-86) is
unconditional and first; a terrain exception aborts immediately; otherwise
the optional blocks run in order buildings, trees, roads and the scene is
written and returned.  Any provider exception aborts the call before the
JSON write and propagates in the outcome. -/
def import_from_openstreet_map (P : Providers L Mesh E)
    (latitude_longitude : L) (a : Args) : Effects L Mesh E :=
  let tcall := ProviderCall.terrain latitude_longitude a.terrain_radius 30
  match P.get_terrain latitude_longitude a.terrain_radius 30 with
  | Except.error e => { calls := [tcall], writes := [], outcome := Except.error e }
  | Except.ok terrain_geo =>
    let terrain_stl := terrain_geo.file_name
    let terrain_mesh := terrain_geo.mesh
    let terrain_dict : PartDict :=
      { file_name := terrain_stl, color := "brown", material := "earth" }
    buildings_stage P latitude_longitude terrain_mesh a
      [("terrain", terrain_dict)] [tcall]

/-- The full list of provider invocations a run performs when no provider
raises, in program order: terrain always, then buildings, trees, roads, each
exactly when its flag is set, each optional call receiving the terrain mesh. -/
def expectedCalls (latitude_longitude : L) (terrain_mesh : Mesh) (a : Args) :
    List (ProviderCall L Mesh) :=
  [ProviderCall.terrain latitude_longitude a.terrain_radius 30] ++
  (if a.include_osm_buildings then
    [ProviderCall.buildings latitude_longitude terrain_mesh (a.terrain_radius * 0.8)] else []) ++
  (if a.include_osm_trees then
    [ProviderCall.trees latitude_longitude terrain_mesh (a.terrain_radius * 0.8)] else []) ++
  (if a.including_osm_roads then
    [ProviderCall.roads latitude_longitude terrain_mesh a.terrain_radius
      a.z_offset a.road_step a.road_width a.save_nodes] else [])

/-- The file system after a sequence of write events, as a lookup function:
each write event makes its path map to its content, leaving other paths
unchanged ("w" mode creates or truncates the target file). -/
def fileAfterWrites {L : Type} (prior : String → Option (Scene L))
    (ws : List (WriteEvent L)) : String → Option (Scene L) :=
  ws.foldl (fun f w q => if q = w.path then some w.content else f q) prior

/-- Test providers that always succeed, for concrete evaluation. -/
def okProviders : Providers (ℚ × ℚ) String String where
  get_terrain := fun _ _ _ => Except.ok { file_name := "terrain.stl", mesh := "terrain_mesh" }
  generate_buildings := fun _ _ _ => Except.ok { file_name := "buildings.stl", mesh := "buildings_mesh" }
  generate_trees := fun _ _ _ => Except.ok { file_name := "trees.stl", mesh := "trees_mesh" }
  create_roads := fun _ _ _ _ _ _ _ => Except.ok { file_name := "roads.stl", mesh := "roads_mesh" }

/-- Test providers whose terrain stage raises, for concrete evaluation of the
failure path. -/
def terrainFailProviders : Providers (ℚ × ℚ) String String where
  get_terrain := fun _ _ _ => Except.error "terrain fetch failed"
  generate_buildings := fun _ _ _ => Except.ok { file_name := "buildings.stl", mesh := "buildings_mesh" }
  generate_trees := fun _ _ _ => Except.ok { file_name := "trees.stl", mesh := "trees_mesh" }
  create_roads := fun _ _ _ _ _ _ _ => Except.ok { file_name := "roads.stl", mesh := "roads_mesh" }

/-- The scene produced by okProviders at the origin with default arguments:
used by the concrete witnesses below. -/
def sampleScene : Scene (ℚ × ℚ) where
  name := "default"
  version := 1
  type := "environment"
  center_lat_lon := (0, 0)
  radius := 500
  include_buildings := true
  include_roads := true
  include_trees := true
  parts :=
    [("terrain", { file_name := "terrain.stl", color := "brown", material := "earth" }),
     ("buildings", { file_name := "buildings.stl", color := "grey", material := "concrete" }),
     ("trees", { file_name := "trees.stl", color := "green", material := "wood" }),
     ("roads", { file_name := "roads.stl", color := "black", material := "asphalt" })]

/-- Arguments with the three optional categories switched off. -/
def minimalArgs : Args :=
  { defaultArgs with include_osm_buildings := false, including_osm_roads := false,
                     include_osm_trees := false }

/-- The scene produced by okProviders at the origin with minimalArgs. -/
def minimalScene : Scene (ℚ × ℚ) :=
  { sampleScene with include_buildings := false, include_roads := false,
                     include_trees := false,
                     parts := [("terrain",
                       { file_name := "terrain.stl", color := "brown",
                         material := "earth" })] }

/-- defaultArgs with only the three never-read output-mode parameters
altered. -/
def altArgs : Args :=
  { defaultArgs with import_in_aedt := true, plot_before_importing := true,
                     create_lightweigth_part := false }

/-! ## Stage-level helper lemmas -/

lemma roads_stage_calls (P : Providers L Mesh E) (l : L) (tm : Mesh) (a : Args)
    (parts : List (String × PartDict)) (calls : List (ProviderCall L Mesh)) :
    (roads_stage P l tm a parts calls).calls =
      calls ++ (if a.including_osm_roads then
        [ProviderCall.roads l tm a.terrain_radius a.z_offset a.road_step
          a.road_width a.save_nodes] else []) := by
  unfold roads_stage
  by_cases hr : a.including_osm_roads
  · simp only [hr, if_true]
    cases h : P.create_roads l tm a.terrain_radius a.z_offset a.road_step
        a.road_width a.save_nodes <;>
      simp [finalize_stage]
  · simp [hr, finalize_stage]

lemma trees_stage_calls_ext (P : Providers L Mesh E) (l : L) (tm : Mesh) (a : Args)
    (parts : List (String × PartDict)) (calls : List (ProviderCall L Mesh)) :
    ∃ ext, (trees_stage P l tm a parts calls).calls = calls ++ ext ∧
      ext <+: ((if a.include_osm_trees then
          [ProviderCall.trees l tm (a.terrain_radius * 0.8)] else []) ++
        (if a.including_osm_roads then
          [ProviderCall.roads l tm a.terrain_radius a.z_offset a.road_step
            a.road_width a.save_nodes] else [])) := by
  unfold trees_stage
  by_cases htr : a.include_osm_trees
  · simp only [htr, if_true]
    cases h : P.generate_trees l tm (a.terrain_radius * 0.8) with
    | error e =>
      exact ⟨[ProviderCall.trees l tm (a.terrain_radius * 0.8)], by simp,
        ⟨if a.including_osm_roads then
          [ProviderCall.roads l tm a.terrain_radius a.z_offset a.road_step
            a.road_width a.save_nodes] else [], by simp [htr]⟩⟩
    | ok trg =>
      refine ⟨[ProviderCall.trees l tm (a.terrain_radius * 0.8)] ++
        (if a.including_osm_roads then
          [ProviderCall.roads l tm a.terrain_radius a.z_offset a.road_step
            a.road_width a.save_nodes] else []), ?_, ?_⟩
      · simp [roads_stage_calls]
      · simp [htr]
  · refine ⟨if a.including_osm_roads then
      [ProviderCall.roads l tm a.terrain_radius a.z_offset a.road_step
        a.road_width a.save_nodes] else [], ?_, ?_⟩
    · simp [htr, roads_stage_calls]
    · simp [htr]

lemma buildings_stage_calls_ext (P : Providers L Mesh E) (l : L) (tm : Mesh) (a : Args)
    (parts : List (String × PartDict)) (calls : List (ProviderCall L Mesh)) :
    ∃ ext, (buildings_stage P l tm a parts calls).calls = calls ++ ext ∧
      ext <+: ((if a.include_osm_buildings then
          [ProviderCall.buildings l tm (a.terrain_radius * 0.8)] else []) ++
        (if a.include_osm_trees then
          [ProviderCall.trees l tm (a.terrain_radius * 0.8)] else []) ++
        (if a.including_osm_roads then
          [ProviderCall.roads l tm a.terrain_radius a.z_offset a.road_step
            a.road_width a.save_nodes] else [])) := by
  unfold buildings_stage
  by_cases hb : a.include_osm_buildings
  · simp only [hb, if_true]
    cases h : P.generate_buildings l tm (a.terrain_radius * 0.8) with
    | error e =>
      refine ⟨[ProviderCall.buildings l tm (a.terrain_radius * 0.8)], by simp, ?_⟩
      exact ⟨(if a.include_osm_trees then
          [ProviderCall.trees l tm (a.terrain_radius * 0.8)] else []) ++
        (if a.including_osm_roads then
          [ProviderCall.roads l tm a.terrain_radius a.z_offset a.road_step
            a.road_width a.save_nodes] else []), by simp [hb]⟩
    | ok bg =>
      obtain ⟨ext, hc, hp⟩ := trees_stage_calls_ext P l tm a
        (parts ++ [("buildings",
          ({ file_name := bg.file_name, color := "grey", material := "concrete" } : PartDict))])
        (calls ++ [ProviderCall.buildings l tm (a.terrain_radius * 0.8)])
      refine ⟨[ProviderCall.buildings l tm (a.terrain_radius * 0.8)] ++ ext, by simp [hc], ?_⟩
      obtain ⟨k, hk⟩ := hp
      exact ⟨k, by simp [hb, ← hk]⟩
  · obtain ⟨ext, hc, hp⟩ := trees_stage_calls_ext P l tm a parts calls
    refine ⟨ext, by simp [hb, hc], ?_⟩
    obtain ⟨k, hk⟩ := hp
    exact ⟨k, by simp [hb, ← hk]⟩

lemma roads_stage_ok (P : Providers L Mesh E) (l : L) (tm : Mesh) (a : Args)
    (parts : List (String × PartDict)) (calls : List (ProviderCall L Mesh)) (s : Scene L)
    (h : (roads_stage P l tm a parts calls).outcome = Except.ok s) :
    ∃ rpart,
      ((a.including_osm_roads = false ∧ rpart = []) ∨
        (a.including_osm_roads = true ∧ ∃ rg,
          P.create_roads l tm a.terrain_radius a.z_offset a.road_step a.road_width a.save_nodes
            = Except.ok rg ∧
          rpart = [("roads",
            ({ file_name := rg.file_name, color := "black",
               material := "asphalt" } : PartDict))])) ∧
      roads_stage P l tm a parts calls =
        finalize_stage l a (parts ++ rpart)
          (calls ++ (if a.including_osm_roads then
            [ProviderCall.roads l tm a.terrain_radius a.z_offset a.road_step
              a.road_width a.save_nodes] else [])) := by
  by_cases hr : a.including_osm_roads
  · cases hcr : P.create_roads l tm a.terrain_radius a.z_offset a.road_step
        a.road_width a.save_nodes with
    | error e =>
      exfalso
      unfold roads_stage at h
      simp [hr, hcr] at h
    | ok rg =>
      refine ⟨[("roads",
        ({ file_name := rg.file_name, color := "black",
           material := "asphalt" } : PartDict))], Or.inr ⟨hr, rg, rfl, rfl⟩, ?_⟩
      unfold roads_stage
      simp [hr, hcr]
  · refine ⟨[], Or.inl ⟨by simpa using hr, rfl⟩, ?_⟩
    unfold roads_stage
    simp [hr]

lemma trees_stage_ok (P : Providers L Mesh E) (l : L) (tm : Mesh) (a : Args)
    (parts : List (String × PartDict)) (calls : List (ProviderCall L Mesh)) (s : Scene L)
    (h : (trees_stage P l tm a parts calls).outcome = Except.ok s) :
    ∃ tpart,
      ((a.include_osm_trees = false ∧ tpart = []) ∨
        (a.include_osm_trees = true ∧ ∃ trg,
          P.generate_trees l tm (a.terrain_radius * 0.8) = Except.ok trg ∧
          tpart = [("trees",
            ({ file_name := trg.file_name, color := "green",
               material := "wood" } : PartDict))])) ∧
      trees_stage P l tm a parts calls =
        roads_stage P l tm a (parts ++ tpart)
          (calls ++ (if a.include_osm_trees then
            [ProviderCall.trees l tm (a.terrain_radius * 0.8)] else [])) := by
  by_cases htr : a.include_osm_trees
  · cases hg : P.generate_trees l tm (a.terrain_radius * 0.8) with
    | error e =>
      exfalso
      unfold trees_stage at h
      simp [htr, hg] at h
    | ok trg =>
      refine ⟨[("trees",
        ({ file_name := trg.file_name, color := "green",
           material := "wood" } : PartDict))], Or.inr ⟨htr, trg, rfl, rfl⟩, ?_⟩
      unfold trees_stage
      simp [htr, hg]
  · refine ⟨[], Or.inl ⟨by simpa using htr, rfl⟩, ?_⟩
    unfold trees_stage
    simp [htr]

lemma buildings_stage_ok (P : Providers L Mesh E) (l : L) (tm : Mesh) (a : Args)
    (parts : List (String × PartDict)) (calls : List (ProviderCall L Mesh)) (s : Scene L)
    (h : (buildings_stage P l tm a parts calls).outcome = Except.ok s) :
    ∃ bpart,
      ((a.include_osm_buildings = false ∧ bpart = []) ∨
        (a.include_osm_buildings = true ∧ ∃ bg,
          P.generate_buildings l tm (a.terrain_radius * 0.8) = Except.ok bg ∧
          bpart = [("buildings",
            ({ file_name := bg.file_name, color := "grey",
               material := "concrete" } : PartDict))])) ∧
      buildings_stage P l tm a parts calls =
        trees_stage P l tm a (parts ++ bpart)
          (calls ++ (if a.include_osm_buildings then
            [ProviderCall.buildings l tm (a.terrain_radius * 0.8)] else [])) := by
  by_cases hb : a.include_osm_buildings
  · cases hg : P.generate_buildings l tm (a.terrain_radius * 0.8) with
    | error e =>
      exfalso
      unfold buildings_stage at h
      simp [hb, hg] at h
    | ok bg =>
      refine ⟨[("buildings",
        ({ file_name := bg.file_name, color := "grey",
           material := "concrete" } : PartDict))], Or.inr ⟨hb, bg, rfl, rfl⟩, ?_⟩
      unfold buildings_stage
      simp [hb, hg]
  · refine ⟨[], Or.inl ⟨by simpa using hb, rfl⟩, ?_⟩
    unfold buildings_stage
    simp [hb]

lemma import_terrain_error (P : Providers L Mesh E) (l : L) (a : Args) (e : E)
    (ht : P.get_terrain l a.terrain_radius 30 = Except.error e) :
    import_from_openstreet_map P l a =
      { calls := [ProviderCall.terrain l a.terrain_radius 30], writes := [],
        outcome := Except.error e } := by
  unfold import_from_openstreet_map
  rw [ht]

lemma import_terrain_ok (P : Providers L Mesh E) (l : L) (a : Args) (tg : GeoResult Mesh)
    (ht : P.get_terrain l a.terrain_radius 30 = Except.ok tg) :
    import_from_openstreet_map P l a =
      buildings_stage P l tg.mesh a
        [("terrain",
          ({ file_name := tg.file_name, color := "brown",
             material := "earth" } : PartDict))]
        [ProviderCall.terrain l a.terrain_radius 30] := by
  unfold import_from_openstreet_map
  rw [ht]

lemma import_ok_run (P : Providers L Mesh E) (l : L) (a : Args) (s : Scene L)
    (h : (import_from_openstreet_map P l a).outcome = Except.ok s) :
    ∃ tg bpart tpart rpart,
      P.get_terrain l a.terrain_radius 30 = Except.ok tg ∧
      ((a.include_osm_buildings = false ∧ bpart = []) ∨
        (a.include_osm_buildings = true ∧ ∃ bg,
          P.generate_buildings l tg.mesh (a.terrain_radius * 0.8) = Except.ok bg ∧
          bpart = [("buildings",
            ({ file_name := bg.file_name, color := "grey",
               material := "concrete" } : PartDict))])) ∧
      ((a.include_osm_trees = false ∧ tpart = []) ∨
        (a.include_osm_trees = true ∧ ∃ trg,
          P.generate_trees l tg.mesh (a.terrain_radius * 0.8) = Except.ok trg ∧
          tpart = [("trees",
            ({ file_name := trg.file_name, color := "green",
               material := "wood" } : PartDict))])) ∧
      ((a.including_osm_roads = false ∧ rpart = []) ∨
        (a.including_osm_roads = true ∧ ∃ rg,
          P.create_roads l tg.mesh a.terrain_radius a.z_offset a.road_step
              a.road_width a.save_nodes = Except.ok rg ∧
          rpart = [("roads",
            ({ file_name := rg.file_name, color := "black",
               material := "asphalt" } : PartDict))])) ∧
      s = scene_of l a ([("terrain",
              ({ file_name := tg.file_name, color := "brown",
                 material := "earth" } : PartDict))] ++ bpart ++ tpart ++ rpart) ∧
      (import_from_openstreet_map P l a).writes =
        [{ path := "." ++ "/" ++ (a.env_name ++ ".json"), content := s,
           encoding := "utf-8", indent := 4 }] ∧
      (import_from_openstreet_map P l a).calls = expectedCalls l tg.mesh a := by
  cases ht : P.get_terrain l a.terrain_radius 30 with
  | error e =>
    rw [import_terrain_error P l a e ht] at h
    exact absurd h (by simp)
  | ok tg =>
    have hrun := import_terrain_ok P l a tg ht
    rw [hrun] at h
    obtain ⟨bpart, hbcase, hbeq⟩ := buildings_stage_ok P l tg.mesh a _ _ s h
    rw [hbeq] at h
    obtain ⟨tpart, htcase, hteq⟩ := trees_stage_ok P l tg.mesh a _ _ s h
    rw [hteq] at h
    obtain ⟨rpart, hrcase, hreq⟩ := roads_stage_ok P l tg.mesh a _ _ s h
    rw [hreq] at h
    have hs : s = scene_of l a ([("terrain",
        ({ file_name := tg.file_name, color := "brown",
           material := "earth" } : PartDict))] ++ bpart ++ tpart ++ rpart) := by
      simp only [finalize_stage] at h
      simp only [Except.ok.injEq] at h
      rw [← h]
    refine ⟨tg, bpart, tpart, rpart, rfl, hbcase, htcase, hrcase, hs, ?_, ?_⟩
    · rw [hrun, hbeq, hteq, hreq, hs]
      simp [finalize_stage]
    · rw [hrun, hbeq, hteq, hreq]
      simp [finalize_stage, expectedCalls]

lemma import_calls_le (P : Providers L Mesh E) (l : L) (a : Args) (tg : GeoResult Mesh)
    (ht : P.get_terrain l a.terrain_radius 30 = Except.ok tg) :
    (import_from_openstreet_map P l a).calls <+: expectedCalls l tg.mesh a := by
  rw [import_terrain_ok P l a tg ht]
  obtain ⟨ext, hc, hp⟩ := buildings_stage_calls_ext P l tg.mesh a
    [("terrain",
      ({ file_name := tg.file_name, color := "brown", material := "earth" } : PartDict))]
    [ProviderCall.terrain l a.terrain_radius 30]
  rw [hc]
  unfold expectedCalls
  obtain ⟨k, hk⟩ := hp
  refine ⟨k, ?_⟩
  rw [List.append_assoc, hk]
  simp [List.append_assoc]

lemma expectedCalls_radius (l : L) (tm : Mesh) (a : Args) :
    ∀ c ∈ expectedCalls l tm a,
      (∀ ll m r, c = ProviderCall.buildings ll m r → r = 0.8 * a.terrain_radius) ∧
      (∀ ll m r, c = ProviderCall.trees ll m r → r = 0.8 * a.terrain_radius) ∧
      (∀ ll m r zo rs rw sn, c = ProviderCall.roads ll m r zo rs rw sn →
        r = a.terrain_radius) := by
  intro c hc
  unfold expectedCalls at hc
  simp only [List.mem_append, List.mem_singleton] at hc
  rcases hc with ((hc | hc) | hc) | hc
  · subst hc
    exact ⟨fun ll m r heq => (nomatch heq), fun ll m r heq => (nomatch heq),
      fun ll m r zo rs rw sn heq => (nomatch heq)⟩
  · have hc' : c = ProviderCall.buildings l tm (a.terrain_radius * 0.8) := by
      split at hc <;> simp_all
    subst hc'
    refine ⟨fun ll m r heq => ?_, fun ll m r heq => (nomatch heq),
      fun ll m r zo rs rw sn heq => (nomatch heq)⟩
    injection heq with h1 h2 h3
    subst h3
    exact mul_comm _ _
  · have hc' : c = ProviderCall.trees l tm (a.terrain_radius * 0.8) := by
      split at hc <;> simp_all
    subst hc'
    refine ⟨fun ll m r heq => (nomatch heq), fun ll m r heq => ?_,
      fun ll m r zo rs rw sn heq => (nomatch heq)⟩
    injection heq with h1 h2 h3
    subst h3
    exact mul_comm _ _
  · have hc' : c = ProviderCall.roads l tm a.terrain_radius
        a.z_offset a.road_step a.road_width a.save_nodes := by
      split at hc <;> simp_all
    subst hc'
    refine ⟨fun ll m r heq => (nomatch heq), fun ll m r heq => (nomatch heq),
      fun ll m r zo rs rw sn heq => ?_⟩
    injection heq with h1 h2 h3 h4 h5 h6 h7
    subst h3
    rfl

/-! ## Claims -/

/-- C1: for every completing call, the parts registry maps "terrain"
unconditionally, maps "buildings"/"trees"/"roads" exactly when the
corresponding inclusion flag was true, and has exactly one entry when all
three flags are false. -/
theorem parts_registry_keys (P : Providers L Mesh E) (l : L) (a : Args) (s : Scene L)
    (h : (import_from_openstreet_map P l a).outcome = Except.ok s) :
    (s.parts.lookup "terrain").isSome = true ∧
    (s.parts.lookup "buildings").isSome = a.include_osm_buildings ∧
    (s.parts.lookup "trees").isSome = a.include_osm_trees ∧
    (s.parts.lookup "roads").isSome = a.including_osm_roads ∧
    (a.include_osm_buildings = false → a.include_osm_trees = false →
      a.including_osm_roads = false → s.parts.length = 1) := by
  obtain ⟨tg, bpart, tpart, rpart, ht, hb, htr, hr, hs, hw, hcalls⟩ :=
    import_ok_run P l a s h
  subst hs
  rcases hb with ⟨hb, rfl⟩ | ⟨hb, bg, hbg, rfl⟩ <;>
  rcases htr with ⟨htr, rfl⟩ | ⟨htr, trg, htrg, rfl⟩ <;>
  rcases hr with ⟨hr, rfl⟩ | ⟨hr, rg, hrg, rfl⟩ <;>
    simp [scene_of, hb, htr, hr, List.lookup]

/-- C1 witness: running with all optional flags off yields a registry with
only the "terrain" key, and exactly one entry. -/
theorem parts_registry_keys_witness :
    (minimalScene.parts.lookup "terrain").isSome = true ∧
    (minimalScene.parts.lookup "buildings").isSome = minimalArgs.include_osm_buildings ∧
    (minimalScene.parts.lookup "trees").isSome = minimalArgs.include_osm_trees ∧
    (minimalScene.parts.lookup "roads").isSome = minimalArgs.including_osm_roads ∧
    (minimalArgs.include_osm_buildings = false → minimalArgs.include_osm_trees = false →
      minimalArgs.including_osm_roads = false → minimalScene.parts.length = 1) :=
  parts_registry_keys okProviders ((0 : ℚ), (0 : ℚ)) minimalArgs minimalScene rfl

/-- C3: for every completing call, center_lat_lon, radius and the three
inclusion-flag fields of the returned scene echo the inputs exactly, and
every written JSON object is that same scene. -/
theorem descriptor_echoes_inputs (P : Providers L Mesh E) (l : L) (a : Args) (s : Scene L)
    (h : (import_from_openstreet_map P l a).outcome = Except.ok s) :
    s.center_lat_lon = l ∧ s.radius = a.terrain_radius ∧
    s.include_buildings = a.include_osm_buildings ∧
    s.include_roads = a.including_osm_roads ∧
    s.include_trees = a.include_osm_trees ∧
    ∀ w ∈ (import_from_openstreet_map P l a).writes, w.content = s := by
  obtain ⟨tg, bpart, tpart, rpart, ht, hb, htr, hr, hs, hw, hcalls⟩ :=
    import_ok_run P l a s h
  refine ⟨by rw [hs]; rfl, by rw [hs]; rfl, by rw [hs]; rfl, by rw [hs]; rfl,
    by rw [hs]; rfl, ?_⟩
  rw [hw]
  intro w hw'
  simp only [List.mem_singleton] at hw'
  subst hw'
  rfl

/-- C3 witness: concrete run at the origin with default arguments. -/
theorem descriptor_echoes_inputs_witness :
    sampleScene.center_lat_lon = ((0 : ℚ), (0 : ℚ)) ∧
    sampleScene.radius = defaultArgs.terrain_radius :=
  ⟨(descriptor_echoes_inputs okProviders ((0 : ℚ), (0 : ℚ)) defaultArgs sampleScene rfl).1,
   (descriptor_echoes_inputs okProviders ((0 : ℚ), (0 : ℚ)) defaultArgs sampleScene rfl).2.1⟩

/-- C4: if the terrain provider raises, no file is written and the raised
value propagates unmodified as the outcome. -/
theorem terrain_failure_aborts (P : Providers L Mesh E) (l : L) (a : Args) (e : E)
    (ht : P.get_terrain l a.terrain_radius 30 = Except.error e) :
    (import_from_openstreet_map P l a).writes = [] ∧
    (import_from_openstreet_map P l a).outcome = Except.error e := by
  rw [import_terrain_error P l a e ht]
  exact ⟨rfl, rfl⟩

/-- C4 witness: a concrete terrain failure writes nothing and surfaces the
failure. -/
theorem terrain_failure_aborts_witness :
    (import_from_openstreet_map terrainFailProviders ((0 : ℚ), (0 : ℚ)) defaultArgs).writes
        = [] ∧
    (import_from_openstreet_map terrainFailProviders ((0 : ℚ), (0 : ℚ)) defaultArgs).outcome
        = Except.error "terrain fetch failed" :=
  terrain_failure_aborts terrainFailProviders ((0 : ℚ), (0 : ℚ)) defaultArgs
    "terrain fetch failed" rfl

/-- C7: the defaults of the signature are exactly those the specification
lists. -/
theorem signature_defaults :
    defaultArgs.env_name = "default" ∧ defaultArgs.terrain_radius = 500 ∧
    defaultArgs.include_osm_buildings = true ∧ defaultArgs.including_osm_roads = true ∧
    defaultArgs.include_osm_trees = true ∧ defaultArgs.import_in_aedt = false ∧
    defaultArgs.plot_before_importing = false ∧ defaultArgs.z_offset = 2 ∧
    defaultArgs.road_step = 3 ∧ defaultArgs.road_width = 8 ∧
    defaultArgs.create_lightweigth_part = true ∧ defaultArgs.save_nodes = false :=
  ⟨rfl, rfl, rfl, rfl, rfl, rfl, rfl, rfl, rfl, rfl, rfl, rfl⟩

/-- C9: every completing call returns the Environment Descriptor itself
(name, version constant 1, type tag "environment", anchor, radius, the three
flags) and that returned dictionary is exactly the serialized object. -/
theorem returns_descriptor (P : Providers L Mesh E) (l : L) (a : Args) (s : Scene L)
    (h : (import_from_openstreet_map P l a).outcome = Except.ok s) :
    s.name = a.env_name ∧ s.version = 1 ∧ s.type = "environment" ∧
    s.center_lat_lon = l ∧ s.radius = a.terrain_radius ∧
    s.include_buildings = a.include_osm_buildings ∧
    s.include_roads = a.including_osm_roads ∧
    s.include_trees = a.include_osm_trees ∧
    (import_from_openstreet_map P l a).writes =
      [{ path := "." ++ "/" ++ (a.env_name ++ ".json"), content := s,
         encoding := "utf-8", indent := 4 }] := by
  obtain ⟨tg, bpart, tpart, rpart, ht, hb, htr, hr, hs, hw, hcalls⟩ :=
    import_ok_run P l a s h
  exact ⟨by rw [hs]; rfl, by rw [hs]; rfl, by rw [hs]; rfl, by rw [hs]; rfl,
    by rw [hs]; rfl, by rw [hs]; rfl, by rw [hs]; rfl, by rw [hs]; rfl, hw⟩

/-- C9 witness: concrete run at the origin with default arguments. -/
theorem returns_descriptor_witness :
    sampleScene.name = defaultArgs.env_name ∧ sampleScene.version = 1 ∧
    sampleScene.type = "environment" :=
  ⟨(returns_descriptor okProviders ((0 : ℚ), (0 : ℚ)) defaultArgs sampleScene rfl).1,
   (returns_descriptor okProviders ((0 : ℚ), (0 : ℚ)) defaultArgs sampleScene rfl).2.1,
   (returns_descriptor okProviders ((0 : ℚ), (0 : ℚ)) defaultArgs sampleScene rfl).2.2.1⟩

/-- C2: in every execution, any buildings or trees provider call receives
max_radius equal to 0.8 times terrain_radius, and any roads provider call
receives max_radius equal to terrain_radius unmodified. -/
theorem optional_call_radii (P : Providers L Mesh E) (l : L) (a : Args) :
    ∀ c ∈ (import_from_openstreet_map P l a).calls,
      (∀ ll m r, c = ProviderCall.buildings ll m r → r = 0.8 * a.terrain_radius) ∧
      (∀ ll m r, c = ProviderCall.trees ll m r → r = 0.8 * a.terrain_radius) ∧
      (∀ ll m r zo rs w sn, c = ProviderCall.roads ll m r zo rs w sn →
        r = a.terrain_radius) := by
  intro c hc
  cases ht : P.get_terrain l a.terrain_radius 30 with
  | error e =>
    rw [import_terrain_error P l a e ht] at hc
    have hc' : c ∈ [ProviderCall.terrain l a.terrain_radius 30] := hc
    simp only [List.mem_singleton] at hc'
    subst hc'
    exact ⟨fun ll m r heq => (nomatch heq), fun ll m r heq => (nomatch heq),
      fun ll m r zo rs w sn heq => (nomatch heq)⟩
  | ok tg =>
    exact expectedCalls_radius l tg.mesh a c
      ((import_calls_le P l a tg ht).subset hc)

/-- C2 witness: in a concrete default run the roads call carries
max_radius 500, the unmodified terrain radius. -/
theorem optional_call_radii_witness :
    (500 : ℚ) = defaultArgs.terrain_radius :=
  (optional_call_radii okProviders ((0 : ℚ), (0 : ℚ)) defaultArgs
      (ProviderCall.roads ((0 : ℚ), (0 : ℚ)) "terrain_mesh" 500 2 3 8 false)
      (by decide)).2.2
    ((0 : ℚ), (0 : ℚ)) "terrain_mesh" 500 2 3 8 false rfl

/-- C5: once terrain succeeds, the provider calls of any execution are a
prefix of the fixed order terrain, buildings, trees, roads (optional ones
exactly when flagged, each fed the terrain mesh); the terrain call is always
first, and a completing execution performs exactly that call list. -/
theorem provider_call_order (P : Providers L Mesh E) (l : L) (a : Args) (tg : GeoResult Mesh)
    (ht : P.get_terrain l a.terrain_radius 30 = Except.ok tg) :
    (import_from_openstreet_map P l a).calls.head? =
      some (ProviderCall.terrain l a.terrain_radius 30) ∧
    (import_from_openstreet_map P l a).calls <+: expectedCalls l tg.mesh a ∧
    (∀ s, (import_from_openstreet_map P l a).outcome = Except.ok s →
      (import_from_openstreet_map P l a).calls = expectedCalls l tg.mesh a) := by
  refine ⟨?_, import_calls_le P l a tg ht, ?_⟩
  · rw [import_terrain_ok P l a tg ht]
    obtain ⟨ext, hc, hp⟩ := buildings_stage_calls_ext P l tg.mesh a
      [("terrain",
        ({ file_name := tg.file_name, color := "brown", material := "earth" } : PartDict))]
      [ProviderCall.terrain l a.terrain_radius 30]
    rw [hc]
    rfl
  · intro s hok
    obtain ⟨tg', bpart, tpart, rpart, ht', hb, htr, hr, hs, hw, hcalls⟩ :=
      import_ok_run P l a s hok
    rw [ht] at ht'
    injection ht' with ht'
    subst ht'
    exact hcalls

/-- C5 witness: the complete default run calls terrain, buildings, trees,
roads in order. -/
theorem provider_call_order_witness :
    (import_from_openstreet_map okProviders ((0 : ℚ), (0 : ℚ)) defaultArgs).calls =
      expectedCalls ((0 : ℚ), (0 : ℚ)) "terrain_mesh" defaultArgs :=
  (provider_call_order okProviders ((0 : ℚ), (0 : ℚ)) defaultArgs
    ⟨"terrain.stl", "terrain_mesh"⟩ rfl).2.2 sampleScene rfl

/-- C6: every completing call performs exactly one write, of the returned
scene, at output_path/env_name.json, UTF-8 encoded with indent 4; applying
the writes to any prior file system makes that path hold the scene
(overwriting any previous content) and leaves every other path unchanged. -/
theorem single_json_write (P : Providers L Mesh E) (l : L) (a : Args) (s : Scene L)
    (h : (import_from_openstreet_map P l a).outcome = Except.ok s) :
    (import_from_openstreet_map P l a).writes =
      [{ path := "." ++ "/" ++ (a.env_name ++ ".json"), content := s,
         encoding := "utf-8", indent := 4 }] ∧
    ∀ prior : String → Option (Scene L),
      fileAfterWrites prior (import_from_openstreet_map P l a).writes
          ("." ++ "/" ++ (a.env_name ++ ".json")) = some s ∧
      ∀ q, q ≠ "." ++ "/" ++ (a.env_name ++ ".json") →
        fileAfterWrites prior (import_from_openstreet_map P l a).writes q = prior q := by
  obtain ⟨tg, bpart, tpart, rpart, ht, hb, htr, hr, hs, hw, hcalls⟩ :=
    import_ok_run P l a s h
  refine ⟨hw, ?_⟩
  intro prior
  rw [hw]
  constructor
  · simp [fileAfterWrites]
  · intro q hq
    simp only [ne_eq] at hq
    simp at hq
    simp [fileAfterWrites, hq]

/-- C6 witness: the default run at the origin writes exactly
./default.json, and afterwards that path holds the returned scene. -/
theorem single_json_write_witness :
    (import_from_openstreet_map okProviders ((0 : ℚ), (0 : ℚ)) defaultArgs).writes =
      [{ path := "." ++ "/" ++ (defaultArgs.env_name ++ ".json"), content := sampleScene,
         encoding := "utf-8", indent := 4 }] ∧
    fileAfterWrites (fun _ => none)
        (import_from_openstreet_map okProviders ((0 : ℚ), (0 : ℚ)) defaultArgs).writes
        ("." ++ "/" ++ (defaultArgs.env_name ++ ".json")) = some sampleScene :=
  ⟨(single_json_write okProviders ((0 : ℚ), (0 : ℚ)) defaultArgs sampleScene rfl).1,
   ((single_json_write okProviders ((0 : ℚ), (0 : ℚ)) defaultArgs sampleScene rfl).2
     (fun _ => none)).1⟩

/-- C8: when the roads flag is true, the roads provider receives the
z_offset, road_step, road_width and save_nodes arguments unmodified together
with the terrain mesh, and the resulting file name is recorded under
"roads". -/
theorem roads_call_args (P : Providers L Mesh E) (l : L) (a : Args)
    (tg rg : GeoResult Mesh) (s : Scene L)
    (hroads : a.including_osm_roads = true)
    (ht : P.get_terrain l a.terrain_radius 30 = Except.ok tg)
    (hcr : P.create_roads l tg.mesh a.terrain_radius a.z_offset a.road_step
        a.road_width a.save_nodes = Except.ok rg)
    (h : (import_from_openstreet_map P l a).outcome = Except.ok s) :
    ProviderCall.roads l tg.mesh a.terrain_radius a.z_offset a.road_step
        a.road_width a.save_nodes ∈ (import_from_openstreet_map P l a).calls ∧
    s.parts.lookup "roads" =
      some ({ file_name := rg.file_name, color := "black", material := "asphalt" } : PartDict) := by
  obtain ⟨tg', bpart, tpart, rpart, ht', hb, htr, hr, hs, hw, hcalls⟩ :=
    import_ok_run P l a s h
  rw [ht] at ht'
  injection ht' with ht'
  subst ht'
  rcases hr with ⟨hr0, hr1⟩ | ⟨hr0, rg', hrg', hrp⟩
  · rw [hroads] at hr0
    exact absurd hr0 (by simp)
  · rw [hcr] at hrg'
    injection hrg' with hrg'
    subst hrg'
    subst hrp
    constructor
    · rw [hcalls]
      unfold expectedCalls
      simp [hroads]
    · rw [hs]
      rcases hb with ⟨hb0, rfl⟩ | ⟨hb0, bg, hbg, rfl⟩ <;>
      rcases htr with ⟨htr0, rfl⟩ | ⟨htr0, trg, htrg, rfl⟩ <;>
        simp [scene_of, List.lookup]

/-- C8 witness: concrete default run records roads.stl under "roads" and
passes 500, 2, 3, 8, false to the roads provider. -/
theorem roads_call_args_witness :
    ProviderCall.roads ((0 : ℚ), (0 : ℚ)) "terrain_mesh" defaultArgs.terrain_radius
        defaultArgs.z_offset defaultArgs.road_step defaultArgs.road_width
        defaultArgs.save_nodes ∈
      (import_from_openstreet_map okProviders ((0 : ℚ), (0 : ℚ)) defaultArgs).calls ∧
    sampleScene.parts.lookup "roads" =
      some ({ file_name := "roads.stl", color := "black", material := "asphalt" } : PartDict) :=
  roads_call_args okProviders ((0 : ℚ), (0 : ℚ)) defaultArgs
    ⟨"terrain.stl", "terrain_mesh"⟩ ⟨"roads.stl", "roads_mesh"⟩ sampleScene rfl rfl rfl rfl

/-- C10: the import_in_aedt, plot_before_importing and
create_lightweigth_part parameters are never read: two calls differing only
in them have identical provider calls, writes and outcome. -/
theorem unused_options_no_effect (P : Providers L Mesh E) (l : L) (a₁ a₂ : Args)
    (h1 : a₁.env_name = a₂.env_name)
    (h2 : a₁.terrain_radius = a₂.terrain_radius)
    (h3 : a₁.include_osm_buildings = a₂.include_osm_buildings)
    (h4 : a₁.including_osm_roads = a₂.including_osm_roads)
    (h5 : a₁.include_osm_trees = a₂.include_osm_trees)
    (h6 : a₁.z_offset = a₂.z_offset)
    (h7 : a₁.road_step = a₂.road_step)
    (h8 : a₁.road_width = a₂.road_width)
    (h9 : a₁.save_nodes = a₂.save_nodes) :
    import_from_openstreet_map P l a₁ = import_from_openstreet_map P l a₂ := by
  obtain ⟨e1, t1, b1, r1, x1, i1, p1, z1, s1, w1, c1, n1⟩ := a₁
  obtain ⟨e2, t2, b2, r2, x2, i2, p2, z2, s2, w2, c2, n2⟩ := a₂
  dsimp only at h1 h2 h3 h4 h5 h6 h7 h8 h9
  subst h1 h2 h3 h4 h5 h6 h7 h8 h9
  rfl

/-- C10 witness: flipping the three never-read parameters leaves the whole
observable behaviour of a concrete run unchanged. -/
theorem unused_options_no_effect_witness :
    import_from_openstreet_map okProviders ((0 : ℚ), (0 : ℚ)) defaultArgs =
      import_from_openstreet_map okProviders ((0 : ℚ), (0 : ℚ)) altArgs :=
  unused_options_no_effect okProviders ((0 : ℚ), (0 : ℚ)) defaultArgs altArgs
    rfl rfl rfl rfl rfl rfl rfl rfl rfl

end OsmMapgen

